import Mathlib

set_option maxHeartbeats 1000000

/-!
Shallow embedding of `src/src/client/refresh.c` (the Q2RTX client video
subsystem core: mode-string parsing, driver selection, mode-change
coalescing, lifecycle) and proofs about it.

Modelling conventions:
* C strings are `List Char`, read left to right; the terminating NUL is the
  end of the list (`*s == 0` becomes "the list is empty").
* `unsigned long` is `Nat` with the 64-bit saturation of `strtoul`;
  `long` is `Int` with the saturation of `strtol`; `int` fields of
  `vrect_t` are `Int` with wrap-around applied where the C code narrows a
  `long` into an `int`.
* Out-parameters become record fields of the result; the defaults the C
  code stores through them on entry are the values of the failure result.
* libc `strtoul`/`strtol` are modelled after ISO C (base 10 call sites
  only): skip whitespace, optional single sign, digit run; on no digits
  the value is 0 and the end pointer is the original argument.
-/

namespace Q2Refresh

/-- Whitespace test. `Q_isspace` comes from the shared header, which is not
under `src/`; it is modelled as the standard C whitespace set, matching the
spec's "whitespace-separated list of tokens". libc `isspace` in the C
locale coincides with it, so the same function serves `strtoul`. -/
def Q_isspace (c : Char) : Bool :=
  c == ' ' || c == '\t' || c == '\n' || c == '\r' || c == '\x0b' || c == '\x0c'

/-- Head of a C string is a decimal digit (the "was any digit consumed"
test of `strtoul`). -/
def headIsDigit : List Char → Bool
  | [] => false
  | c :: _ => c.isDigit

/-- `*s == d` in C: false at the terminating NUL. -/
def headChar : List Char → Char → Bool
  | [], _ => false
  | c :: _, d => c == d

/-- `*s == '+' || *s == '-'` in C. -/
def headSign : List Char → Bool
  | [] => false
  | c :: _ => c == '+' || c == '-'

/-- Digit-accumulation loop shared by `strtoul` and `strtol` (base 10):
consume decimal digits, computing the exact magnitude. -/
def digitsLoop : List Char → Nat → Nat × List Char
  | [], acc => (acc, [])
  | c :: cs, acc =>
    if c.isDigit then digitsLoop cs (acc * 10 + (c.toNat - 48)) else (acc, c :: cs)

def ULONG_SIZE : Nat := 2 ^ 64

/-- Value returned by `strtoul` on a 64-bit platform: magnitudes above
`ULONG_MAX` saturate there; otherwise a leading minus negates in unsigned
arithmetic (modulo 2^64). -/
def ulongClampNeg (neg : Bool) (n : Nat) : Nat :=
  if ULONG_SIZE ≤ n then ULONG_SIZE - 1
  else if neg then (ULONG_SIZE - n) % ULONG_SIZE
  else n

/-- Value returned by `strtol` on a 64-bit platform: saturates at
`LONG_MIN` / `LONG_MAX`. -/
def longClamp (neg : Bool) (n : Nat) : Int :=
  if neg then max (-(2 ^ 63)) (-(n : Int)) else min (2 ^ 63 - 1) (n : Int)

/-- After whitespace and sign handling: digit run or "no conversion"
(value 0, end pointer = original argument `orig`). -/
def strtoulBody (neg : Bool) (t orig : List Char) : Nat × List Char :=
  if headIsDigit t then (ulongClampNeg neg (digitsLoop t 0).1, (digitsLoop t 0).2)
  else (0, orig)

/-- Sign dispatch of `strtoul` after whitespace skipping. -/
def strtoulGo : List Char → List Char → Nat × List Char
  | [], orig => (0, orig)
  | c :: cs, orig =>
    if c = '+' then strtoulBody false cs orig
    else if c = '-' then strtoulBody true cs orig
    else strtoulBody false (c :: cs) orig

/-- libc `strtoul(s, &end, 10)`: result value and end pointer. -/
def strtoul (s : List Char) : Nat × List Char :=
  strtoulGo (s.dropWhile Q_isspace) s

/-- Same for `strtol`. -/
def strtolBody (neg : Bool) (t orig : List Char) : Int × List Char :=
  if headIsDigit t then (longClamp neg (digitsLoop t 0).1, (digitsLoop t 0).2)
  else (0, orig)

def strtolGo : List Char → List Char → Int × List Char
  | [], orig => (0, orig)
  | c :: cs, orig =>
    if c = '+' then strtolBody false cs orig
    else if c = '-' then strtolBody true cs orig
    else strtolBody false (c :: cs) orig

/-- libc `strtol(s, &end, 10)`: result value and end pointer. -/
def strtol (s : List Char) : Int × List Char :=
  strtolGo (s.dropWhile Q_isspace) s

/-- The decimal digit character `'0' + d` used when formatting. -/
def digitChar (d : Nat) : Char :=
  if d = 0 then '0' else if d = 1 then '1' else if d = 2 then '2'
  else if d = 3 then '3' else if d = 4 then '4' else if d = 5 then '5'
  else if d = 6 then '6' else if d = 7 then '7' else if d = 8 then '8' else '9'

/-- Decimal rendering of a `Nat`, most significant digit first (`%u`-style,
no sign; the digit list of `n` reversed). -/
def natChars (n : Nat) : List Char :=
  if n = 0 then ['0'] else ((Nat.digits 10 n).reverse.map digitChar)

/-- `%d` rendering of an `Int`. -/
def intChars (i : Int) : List Char :=
  if i < 0 then '-' :: natChars i.natAbs else natChars i.natAbs

/-- `%+d` rendering of an `Int`: always an explicit sign. -/
def intPlusChars (i : Int) : List Char :=
  (if i < 0 then '-' else '+') :: natChars i.natAbs

end Q2Refresh

namespace Q2Refresh

/-! Formatting / parsing agreement for digit runs. -/

theorem strtoulGo_cons (c : Char) (cs orig : List Char) :
    strtoulGo (c :: cs) orig =
      if c = '+' then strtoulBody false cs orig
      else if c = '-' then strtoulBody true cs orig
      else strtoulBody false (c :: cs) orig := rfl

theorem strtolGo_cons (c : Char) (cs orig : List Char) :
    strtolGo (c :: cs) orig =
      if c = '+' then strtolBody false cs orig
      else if c = '-' then strtolBody true cs orig
      else strtolBody false (c :: cs) orig := rfl

/-- Basic facts about the ten digit characters. -/
theorem digitChar_props (d : Nat) (hd : d < 10) :
    (digitChar d).isDigit = true ∧ Q_isspace (digitChar d) = false ∧
      digitChar d ≠ '+' ∧ digitChar d ≠ '-' ∧ (digitChar d).toNat - 48 = d := by
  interval_cases d <;> exact ⟨by decide, by decide, by decide, by decide, by decide⟩

/-- `digitsLoop` consumes exactly a run of digit characters, folding their
values into the accumulator, and stops at the first non-digit. -/
theorem digitsLoop_digit_run (l : List Nat) (hl : ∀ d ∈ l, d < 10) (r : List Char)
    (hr : headIsDigit r = false) :
    ∀ acc : Nat,
      digitsLoop (l.map digitChar ++ r) acc = (l.foldl (fun a d => a * 10 + d) acc, r) := by
  induction l with
  | nil =>
    intro acc
    cases r with
    | nil => simp [digitsLoop]
    | cons c cs =>
      have hc : c.isDigit = false := by simpa [headIsDigit] using hr
      simp [digitsLoop, hc]
  | cons d l ih =>
    intro acc
    have hd : d < 10 := hl d (List.mem_cons_self d l)
    obtain ⟨h1, _, _, _, h5⟩ := digitChar_props d hd
    have ih' := ih (fun e he => hl e (List.mem_cons_of_mem d he)) (acc * 10 + d)
    simp only [List.map_cons, List.cons_append, digitsLoop, h1, if_true, h5]
    simpa using ih'

/-- Folding digit values most-significant-first over a reversed digit list
recovers the number. -/
theorem foldl_reverse_ofDigits (L : List Nat) :
    ∀ acc : Nat,
      L.reverse.foldl (fun a d => a * 10 + d) acc = acc * 10 ^ L.length + Nat.ofDigits 10 L := by
  induction L with
  | nil => intro acc; simp
  | cons d L ih =>
    intro acc
    rw [List.reverse_cons, List.foldl_append, ih acc]
    simp [Nat.ofDigits_cons, pow_succ]
    ring

/-- Every character of `natChars n` is one of the ten digit characters. -/
theorem natChars_chars (n : Nat) (c : Char) (hc : c ∈ natChars n) :
    ∃ d, d < 10 ∧ c = digitChar d := by
  by_cases h0 : n = 0
  · refine ⟨0, by norm_num, ?_⟩
    simp [natChars, h0] at hc
    simp [hc, digitChar]
  · simp only [natChars, h0, if_false, List.mem_map, List.mem_reverse] at hc
    obtain ⟨d, hd, rfl⟩ := hc
    exact ⟨d, Nat.digits_lt_base (by norm_num) hd, rfl⟩

theorem natChars_ne_nil (n : Nat) : natChars n ≠ [] := by
  by_cases h0 : n = 0 <;>
    simp [natChars, h0, Nat.digits_ne_nil_iff_ne_zero]

/-- Parsing the decimal rendering of `n` followed by a non-digit suffix
yields exactly `n` and leaves the suffix. -/
theorem digitsLoop_natChars (n : Nat) (r : List Char) (hr : headIsDigit r = false) :
    digitsLoop (natChars n ++ r) 0 = (n, r) := by
  by_cases h0 : n = 0
  · subst h0
    have := digitsLoop_digit_run [] (by simp) r hr 0
    simp only [natChars, if_pos rfl, List.cons_append, List.nil_append, digitsLoop]
    simpa [digitsLoop] using this
  · have hlt : ∀ d ∈ (Nat.digits 10 n).reverse, d < 10 := by
      intro d hd
      exact Nat.digits_lt_base (by norm_num) (List.mem_reverse.mp hd)
    have := digitsLoop_digit_run ((Nat.digits 10 n).reverse) hlt r hr 0
    rw [foldl_reverse_ofDigits] at this
    simp only [natChars, h0, if_false]
    simpa [Nat.ofDigits_digits] using this

/-- Head decomposition of `natChars n`: a digit character. -/
theorem natChars_head (n : Nat) :
    ∃ c t, natChars n = c :: t ∧ c.isDigit = true ∧ Q_isspace c = false ∧
      c ≠ '+' ∧ c ≠ '-' := by
  cases hnc : natChars n with
  | nil => exact absurd hnc (natChars_ne_nil n)
  | cons c t =>
    have hc : c ∈ natChars n := by rw [hnc]; exact List.mem_cons_self c t
    obtain ⟨d, hd, rfl⟩ := natChars_chars n c hc
    obtain ⟨h1, h2, h3, h4, _⟩ := digitChar_props d hd
    exact ⟨digitChar d, t, rfl, h1, h2, h3, h4⟩

theorem headIsDigit_natChars_append (n : Nat) (r : List Char) :
    headIsDigit (natChars n ++ r) = true := by
  obtain ⟨c, t, hnc, h1, _, _, _⟩ := natChars_head n
  rw [hnc]
  simpa [headIsDigit] using h1

/-- `strtoul` on `natChars n ++ r` (non-digit head of `r`): value `n`,
end pointer `r`. -/
theorem strtoul_natChars (n : Nat) (r : List Char) (hn : n < 2 ^ 64)
    (hr : headIsDigit r = false) : strtoul (natChars n ++ r) = (n, r) := by
  obtain ⟨c, t, hnc, h1, h2, h3, h4⟩ := natChars_head n
  have hdrop : (natChars n ++ r).dropWhile Q_isspace = natChars n ++ r := by
    rw [hnc, List.cons_append, List.dropWhile_cons]
    simp [h2]
  rw [strtoul, hdrop, hnc, List.cons_append, strtoulGo_cons, if_neg h3, if_neg h4]
  have hbody : headIsDigit (c :: (t ++ r)) = true := by simpa [headIsDigit] using h1
  rw [strtoulBody, if_pos hbody]
  have := digitsLoop_natChars n r hr
  rw [hnc, List.cons_append] at this
  rw [this]
  rw [ulongClampNeg, if_neg (by simp only [ULONG_SIZE]; omega : ¬ ULONG_SIZE ≤ n),
    if_neg (by decide : ¬ false = true)]

theorem headIsDigit_intPlusChars (i : Int) (r : List Char) :
    headIsDigit (intPlusChars i ++ r) = false := by
  by_cases hi : i < 0 <;> simp [intPlusChars, hi, headIsDigit]

theorem headSign_intPlusChars (i : Int) (r : List Char) :
    headSign (intPlusChars i ++ r) = true := by
  by_cases hi : i < 0 <;> simp [intPlusChars, hi, headSign]

/-- `strtol` on the `%+d` rendering of `i` followed by a non-digit suffix:
value `i`, end pointer the suffix. -/
theorem strtol_intPlusChars (i : Int) (r : List Char) (h1 : -(2 ^ 63) ≤ i)
    (h2 : i ≤ 2 ^ 63 - 1) (hr : headIsDigit r = false) :
    strtol (intPlusChars i ++ r) = (i, r) := by
  have habs : i.natAbs < 2 ^ 64 := by omega
  have hdig := digitsLoop_natChars i.natAbs r hr
  have hbody : headIsDigit (natChars i.natAbs ++ r) = true :=
    headIsDigit_natChars_append i.natAbs r
  by_cases hi : i < 0
  · have hsim : intPlusChars i ++ r = '-' :: (natChars i.natAbs ++ r) := by
      simp [intPlusChars, hi]
    have hdrop : List.dropWhile Q_isspace ('-' :: (natChars i.natAbs ++ r)) =
        '-' :: (natChars i.natAbs ++ r) := by
      rw [List.dropWhile_cons, if_neg (by decide)]
    rw [strtol, hsim, hdrop, strtolGo_cons, if_neg (by decide), if_pos rfl, strtolBody,
      if_pos hbody, hdig]
    have hcl : longClamp true i.natAbs = i := by
      rw [longClamp, if_pos rfl]
      have habs' : ((i.natAbs : Int)) = -i := by omega
      rw [habs']
      omega
    rw [hcl]
  · have hsim : intPlusChars i ++ r = '+' :: (natChars i.natAbs ++ r) := by
      simp [intPlusChars, hi]
    have hdrop : List.dropWhile Q_isspace ('+' :: (natChars i.natAbs ++ r)) =
        '+' :: (natChars i.natAbs ++ r) := by
      rw [List.dropWhile_cons, if_neg (by decide)]
    rw [strtol, hsim, hdrop, strtolGo_cons, if_pos rfl, strtolBody, if_pos hbody, hdig]
    have hcl : longClamp false i.natAbs = i := by
      rw [longClamp, if_neg (by decide : ¬ false = true)]
      have habs' : ((i.natAbs : Int)) = i := by omega
      rw [habs']
      omega
    rw [hcl]

/-!
`vrect_t` and the two parse results. In the C code the rectangle and the
`freq`/`depth` out-parameters are filled with defaults on entry and
overwritten only after every check has passed; the embedding computes the
parsed payload first (`Option`) and assembles the same final values.
The `freq_p`/`depth_p` pointers are taken non-null (every caller passes
them; a null pointer merely suppresses the store).
-/

structure vrect_t where
  x : Int
  y : Int
  width : Int
  height : Int
deriving DecidableEq

structure GeoOut where
  ok : Bool
  rc : vrect_t
deriving DecidableEq

structure FullscreenOut where
  ok : Bool
  rc : vrect_t
  freq : Int
  depth : Int
deriving DecidableEq

/-- Narrowing a `long` into the `int` fields of `vrect_t`
(two's-complement wrap-around, the behavior of the targeted platforms). -/
def wrap32 (x : Int) : Int := (x + 2 ^ 31) % 2 ^ 32 - 2 ^ 31

/-- Lines 176-183 of refresh.c: after `W x H`, an optional signed `X` and
then an optional signed `Y`, each read with `strtol` from the sign
character on; missing coordinates keep the defaults `x0`/`y0` (the values
the caller pre-stored in `rc`, both 100 here). -/
def parseXY (x0 y0 : Int) (s : List Char) : Int × Int :=
  if headSign s then
    (if headSign (strtol s).2 then ((strtol s).1, (strtol (strtol s).2).1)
     else ((strtol s).1, y0))
  else (x0, y0)

/-- Lines 170-189: the `W ('x'|'X') H [±X[±Y]]` grammar after the leading
`W` has been read; `none` is the "return false" path. -/
def geoParseTail (w : Nat) (s1 : List Char) : Option (Nat × Nat × Int × Int) :=
  if headChar s1 'x' || headChar s1 'X' then
    (if w < 320 ∨ 8192 < w ∨ (strtoul s1.tail).1 < 240 ∨ 8192 < (strtoul s1.tail).1 then none
     else
       some (w, (strtoul s1.tail).1, (parseXY 100 100 (strtoul (s1.tail)).2).1,
         (parseXY 100 100 (strtoul (s1.tail)).2).2))
  else none

/-- `VID_GetGeometry`, parsing phase (lines 163-189): `none` exactly when
the C code returns `false`. A `none` cvar is the null-pointer check. -/
def geoParse : Option (List Char) → Option (Nat × Nat × Int × Int)
  | none => none
  | some s => if s = [] then none else geoParseTail (strtoul s).1 (strtoul s).2

/-- `VID_GetGeometry` (lines 151-197): defaults `100,100,1280x720` are
returned on every failure path; on success the parsed values overwrite
them (the `long`→`int` narrowing of `x`/`y` included). -/
def VID_GetGeometry (g : Option String) : GeoOut :=
  match geoParse (g.map String.data) with
  | none => ⟨false, ⟨100, 100, 1280, 720⟩⟩
  | some r => ⟨true, ⟨wrap32 r.2.2.1, wrap32 r.2.2.2, (r.1 : Int), (r.2.1 : Int)⟩⟩

/-- `VID_SetGeometry` (lines 199-209) formats `"%dx%d%+d%+d"` from the
rectangle into a 64-byte buffer and stores it in the `vid_geometry` cvar;
this is the string it stores. (For the 320..8192 / 32-bit ranges at issue
the formatted text is at most 33 characters, so the `MAX_QPATH`(64)
truncation of `Q_snprintf` never triggers.) -/
def VID_SetGeometry_string (rc : vrect_t) : String :=
  ⟨intChars rc.width ++ 'x' :: (intChars rc.height ++ (intPlusChars rc.x ++ intPlusChars rc.y))⟩

/-!  Mode-list parsing (`VID_GetFullscreen`, lines 63-145). -/

/-- Lines 106-116: optional `@freq[:depth]` or `:depth[@freq]` suffix of a
mode token; both orders accepted, missing parts zero. -/
def pfdFreqFirst (f : Nat) (s1 : List Char) : Nat × Nat × List Char :=
  if headChar s1 ':' then (f, (strtoul s1.tail).1, (strtoul s1.tail).2) else (f, 0, s1)

def pfdDepthFirst (d : Nat) (s1 : List Char) : Nat × Nat × List Char :=
  if headChar s1 '@' then ((strtoul s1.tail).1, d, (strtoul s1.tail).2) else (0, d, s1)

def parseFreqDepth (s : List Char) : Nat × Nat × List Char :=
  if headChar s '@' then pfdFreqFirst (strtoul s.tail).1 (strtoul s.tail).2
  else if headChar s ':' then pfdDepthFirst (strtoul s.tail).1 (strtoul s.tail).2
  else (0, 0, s)

/-- Lines 99-116: `W ('x'|'X') H` with optional freq/depth suffix, after
the leading `W` has been read; `none` is the "Mode %d is malformed" path. -/
def parseWH (w : Nat) (s1 : List Char) : Option (Nat × Nat × Nat × Nat × List Char) :=
  if headChar s1 'x' || headChar s1 'X' then
    some (w, (strtoul s1.tail).1, (parseFreqDepth (strtoul s1.tail).2).1,
      (parseFreqDepth (strtoul s1.tail).2).2.1, (parseFreqDepth (strtoul s1.tail).2).2.2)
  else none

/-- After `s += 7` on a `desktop` match (line 93): the token must end here
or before whitespace. -/
def desktopRestOk : List Char → Bool
  | [] => true
  | c :: _ => Q_isspace c

/-- One token of the mode list (lines 91-117): either `desktop` (all-zero
mode) or `WxH` with suffixes; also returns the rest of the string. -/
def parseToken (s : List Char) : Option (Nat × Nat × Nat × Nat × List Char) :=
  if s.take 7 = "desktop".data then
    (if desktopRestOk (s.drop 7) then some (0, 0, 0, 0, s.drop 7) else none)
  else parseWH (strtoul s).1 (strtoul s).2

/-- The `while (1)` walk over the token list (lines 89-128), counting
1-based modes until the selected one. Each continuing iteration consumes
at least one character (proved below), so the fuel `s.length + 1` used
by `findMode` is never exhausted; `findModeF_fuel_irrelevant` makes that
exact. `none` covers both "malformed" and "Mode %d not found". -/
def findModeF : Nat → Int → Int → List Char → Option (Nat × Nat × Nat × Nat)
  | 0, _, _, _ => none
  | fuel + 1, target, mode, s =>
    match parseToken s with
    | none => none
    | some r =>
      if mode = target then some (r.1, r.2.1, r.2.2.1, r.2.2.2.1)
      else if (r.2.2.2.2).dropWhile Q_isspace = [] then none
      else findModeF fuel target (mode + 1) ((r.2.2.2.2).dropWhile Q_isspace)

def findMode (target : Int) (s : List Char) : Option (Nat × Nat × Nat × Nat) :=
  findModeF (s.length + 1) target 1 s

/-- `VID_GetFullscreen`, parsing phase: `none` exactly when the C code
returns `false` (null cvars, empty list, malformed token, index not
found, or the final sanity check on lines 130-134). -/
def fsParse : Option (List Char) → Option Int → Option (Nat × Nat × Nat × Nat)
  | some ml, some fs =>
    (if ml.dropWhile Q_isspace = [] then none
     else
       match findMode fs (ml.dropWhile Q_isspace) with
       | none => none
       | some r =>
         if r.1 < 320 ∨ 8192 < r.1 ∨ r.2.1 < 240 ∨ 8192 < r.2.1 ∨ 1000 < r.2.2.1 ∨
             32 < r.2.2.2 then none
         else some r)
  | _, _ => none

/-- `VID_GetFullscreen` (lines 63-145): defaults `0,0,640x480` with
`freq = depth = 0` on every failure path; the parsed mode overwrites
width/height/freq/depth on success (`x`/`y` stay 0). -/
def VID_GetFullscreen (ml : Option String) (fs : Option Int) : FullscreenOut :=
  match fsParse (ml.map String.data) fs with
  | none => ⟨false, ⟨0, 0, 640, 480⟩, 0, 0⟩
  | some r => ⟨true, ⟨0, 0, (r.1 : Int), (r.2.1 : Int)⟩, (r.2.2.1 : Int), (r.2.2.2 : Int)⟩

/-! Progress of the token loop: every continuing iteration of the C
`while (1)` loop consumes at least one character, so the fuel given to
`findModeF` by `findMode` is never exhausted. -/

theorem digitsLoop_length (t : List Char) : ∀ acc, (digitsLoop t acc).2.length ≤ t.length := by
  induction t with
  | nil => intro acc; simp [digitsLoop]
  | cons c cs ih =>
    intro acc
    by_cases hc : c.isDigit = true
    · simp only [digitsLoop, hc, if_true]
      exact le_trans (ih _) (by simp)
    · simp [digitsLoop, hc]

theorem dropWhile_length_le (p : Char → Bool) (l : List Char) :
    (l.dropWhile p).length ≤ l.length := by
  induction l with
  | nil => simp
  | cons c cs ih =>
    rw [List.dropWhile_cons]
    by_cases hc : p c = true
    · simp only [hc, if_true]
      exact le_trans ih (by simp)
    · simp [hc]

theorem strtoulBody_length (neg : Bool) (t orig : List Char) (h : t.length ≤ orig.length) :
    (strtoulBody neg t orig).2.length ≤ orig.length := by
  rw [strtoulBody]
  by_cases hd : headIsDigit t = true
  · simp only [hd, if_true]
    exact le_trans (digitsLoop_length t 0) h
  · simp [hd]

theorem strtoul_length (s : List Char) : (strtoul s).2.length ≤ s.length := by
  rw [strtoul]
  cases hd : s.dropWhile Q_isspace with
  | nil => simp [strtoulGo]
  | cons c cs =>
    have hlen : (c :: cs).length ≤ s.length := by
      rw [← hd]; exact dropWhile_length_le _ s
    rw [strtoulGo_cons]
    by_cases h1 : c = '+'
    · rw [if_pos h1]
      exact strtoulBody_length _ _ _ (by simpa using Nat.le_of_succ_le hlen)
    · rw [if_neg h1]
      by_cases h2 : c = '-'
      · rw [if_pos h2]
        exact strtoulBody_length _ _ _ (by simpa using Nat.le_of_succ_le hlen)
      · rw [if_neg h2]
        exact strtoulBody_length _ _ _ hlen

theorem parseFreqDepth_length (s : List Char) : (parseFreqDepth s).2.2.length ≤ s.length := by
  cases s with
  | nil => simp [parseFreqDepth, headChar]
  | cons c cs =>
    rw [parseFreqDepth]
    simp only [List.tail_cons]
    by_cases h1 : headChar (c :: cs) '@' = true
    · rw [if_pos h1, pfdFreqFirst]
      by_cases h2 : headChar (strtoul cs).2 ':' = true
      · rw [if_pos h2]
        cases hs2 : (strtoul cs).2 with
        | nil => simp [hs2, headChar] at h2
        | cons c2 cs2 =>
          have t1 : cs2.length + 1 ≤ cs.length := by
            have := strtoul_length cs
            rw [hs2] at this
            simpa using this
          have t2 := strtoul_length cs2
          simp only [List.tail_cons, List.length_cons]
          omega
      · rw [if_neg h2]
        have := strtoul_length cs
        simp only [List.length_cons]
        omega
    · rw [if_neg h1]
      by_cases h3 : headChar (c :: cs) ':' = true
      · rw [if_pos h3, pfdDepthFirst]
        by_cases h2 : headChar (strtoul cs).2 '@' = true
        · rw [if_pos h2]
          cases hs2 : (strtoul cs).2 with
          | nil => simp [hs2, headChar] at h2
          | cons c2 cs2 =>
            have t1 : cs2.length + 1 ≤ cs.length := by
              have := strtoul_length cs
              rw [hs2] at this
              simpa using this
            have t2 := strtoul_length cs2
            simp only [List.tail_cons, List.length_cons]
            omega
        · rw [if_neg h2]
          have := strtoul_length cs
          simp only [List.length_cons]
          omega
      · rw [if_neg h3]

theorem parseToken_rest_lt (s : List Char) (r : Nat × Nat × Nat × Nat × List Char)
    (h : parseToken s = some r) : (r.2.2.2.2).length < s.length := by
  rw [parseToken] at h
  by_cases hd : s.take 7 = "desktop".data
  · rw [if_pos hd] at h
    have h7 : 7 ≤ s.length := by
      have := congrArg List.length hd
      simp [List.length_take] at this
      omega
    by_cases hok : desktopRestOk (s.drop 7) = true
    · rw [if_pos hok] at h
      cases h
      simp only [List.length_drop]
      omega
    · rw [if_neg hok] at h
      cases h
  · rw [if_neg hd, parseWH] at h
    by_cases hx : (headChar (strtoul s).2 'x' || headChar (strtoul s).2 'X') = true
    · rw [if_pos hx] at h
      cases h
      cases hs1 : (strtoul s).2 with
      | nil => simp [headChar, hs1] at hx
      | cons c cs =>
        have t0 : (c :: cs).length ≤ s.length := by
          rw [← hs1]; exact strtoul_length s
        have t1 := strtoul_length (c :: cs).tail
        have t2 := parseFreqDepth_length (strtoul (c :: cs).tail).2
        simp only [hs1, List.tail_cons, List.length_cons] at *
        omega
    · rw [if_neg hx] at h
      cases h

/-- Fuel-insensitivity of the loop above its actual depth: with any fuel
exceeding the string length the loop equals its `s.length + 1`-fuel form,
i.e. the fuel in `findMode` is an upper bound, not a semantic device. -/
theorem findModeF_fuel_irrelevant (fuel : Nat) :
    ∀ target mode s, s.length < fuel →
      findModeF fuel target mode s = findModeF (s.length + 1) target mode s := by
  induction fuel using Nat.strong_induction_on with
  | _ fuel ih =>
    intro target mode s hs
    match fuel, hs with
    | fuel + 1, hs =>
      rw [findModeF, findModeF]
      cases hp : parseToken s with
      | none => rfl
      | some r =>
        simp only
        by_cases hm : mode = target
        · rw [if_pos hm, if_pos hm]
        · rw [if_neg hm, if_neg hm]
          by_cases he : (r.2.2.2.2).dropWhile Q_isspace = []
          · rw [if_pos he, if_pos he]
          · rw [if_neg he, if_neg he]
            have hlt : ((r.2.2.2.2).dropWhile Q_isspace).length < s.length :=
              lt_of_le_of_lt (dropWhile_length_le _ _) (parseToken_rest_lt s r hp)
            rw [ih fuel (by omega) target (mode + 1) _ (by omega),
              ih s.length (by omega) target (mode + 1) _ (by omega)]

/-- Narrowing is the identity on the 32-bit signed range. -/
theorem wrap32_id (x : Int) (h1 : -(2 ^ 31) ≤ x) (h2 : x ≤ 2 ^ 31 - 1) : wrap32 x = x := by
  rw [wrap32]
  omega

theorem headIsDigit_intPlusChars_nil (i : Int) : headIsDigit (intPlusChars i) = false := by
  have := headIsDigit_intPlusChars i []
  rwa [List.append_nil] at this

theorem headSign_intPlusChars_nil (i : Int) : headSign (intPlusChars i) = true := by
  have := headSign_intPlusChars i []
  rwa [List.append_nil] at this

theorem intChars_natCast (n : Nat) : intChars (n : Int) = natChars n := by
  rw [intChars, if_neg (by omega : ¬ ((n : Int) < 0))]
  norm_num

end Q2Refresh

namespace Q2Refresh

/-! The claim theorems about the parsers. -/

/-- C4: for all `(W, H, X, Y)` with `320 ≤ W ≤ 8192`, `240 ≤ H ≤ 8192` and
`X`, `Y` in the 32-bit signed range, formatting the geometry with
`VID_SetGeometry`'s `"%dx%d%+d%+d"` format and parsing the result with
`VID_GetGeometry` succeeds and returns exactly `(W, H, X, Y)`. -/
theorem geometry_roundtrip (W H : Nat) (X Y : Int) (hW1 : 320 ≤ W) (hW2 : W ≤ 8192)
    (hH1 : 240 ≤ H) (hH2 : H ≤ 8192) (hX1 : -(2 ^ 31) ≤ X) (hX2 : X ≤ 2 ^ 31 - 1)
    (hY1 : -(2 ^ 31) ≤ Y) (hY2 : Y ≤ 2 ^ 31 - 1) :
    VID_GetGeometry (some (VID_SetGeometry_string ⟨X, Y, (W : Int), (H : Int)⟩)) =
      ⟨true, ⟨X, Y, (W : Int), (H : Int)⟩⟩ := by
  have hdata : (VID_SetGeometry_string ⟨X, Y, (W : Int), (H : Int)⟩).data =
      natChars W ++ 'x' :: (natChars H ++ (intPlusChars X ++ intPlusChars Y)) := by
    show intChars ((W : Int)) ++ 'x' :: (intChars ((H : Int)) ++ _) = _
    rw [intChars_natCast, intChars_natCast]
  have hstrt1 : strtoul (natChars W ++ 'x' :: (natChars H ++ (intPlusChars X ++ intPlusChars Y)))
      = (W, 'x' :: (natChars H ++ (intPlusChars X ++ intPlusChars Y))) :=
    strtoul_natChars W _ (by omega) rfl
  have hstrt2 : strtoul (natChars H ++ (intPlusChars X ++ intPlusChars Y))
      = (H, intPlusChars X ++ intPlusChars Y) :=
    strtoul_natChars H _ (by omega) (headIsDigit_intPlusChars X _)
  have hstl1 : strtol (intPlusChars X ++ intPlusChars Y) = (X, intPlusChars Y) :=
    strtol_intPlusChars X _ (by omega) (by omega) (headIsDigit_intPlusChars_nil Y)
  have hstl2 : strtol (intPlusChars Y) = (Y, []) := by
    have := strtol_intPlusChars Y [] (by omega) (by omega) rfl
    rwa [List.append_nil] at this
  have hxy : parseXY 100 100 (intPlusChars X ++ intPlusChars Y) = (X, Y) := by
    rw [parseXY, if_pos (headSign_intPlusChars X _), hstl1]
    simp only
    rw [if_pos (headSign_intPlusChars_nil Y), hstl2]
  have hparse : geoParse (some (VID_SetGeometry_string ⟨X, Y, (W : Int), (H : Int)⟩).data)
      = some (W, H, X, Y) := by
    rw [hdata, geoParse,
      if_neg (by simp : ¬ (natChars W ++ 'x' :: (natChars H ++ (intPlusChars X ++ intPlusChars Y)) = [])),
      hstrt1]
    simp only
    rw [geoParseTail, if_pos (by rfl)]
    simp only [List.tail_cons]
    rw [hstrt2]
    simp only
    rw [if_neg (by omega), hxy]
  simp only [VID_GetFullscreen, VID_GetGeometry, Option.map_some', hparse]
  rw [wrap32_id X hX1 hX2, wrap32_id Y hY1 hY2]

/-- C4 witness at the spec's concrete scenario `1280x720+100-50`. -/
theorem geometry_roundtrip_witness :
    VID_GetGeometry (some (VID_SetGeometry_string ⟨100, -50, 1280, 720⟩)) =
      ⟨true, ⟨100, -50, 1280, 720⟩⟩ :=
  geometry_roundtrip 1280 720 100 (-50) (by norm_num) (by norm_num) (by norm_num)
    (by norm_num) (by norm_num) (by norm_num) (by norm_num) (by norm_num)

/-- C7: whenever `VID_GetGeometry` or `VID_GetFullscreen` fails (returns
`false`), the caller's outputs hold exactly the defaults filled in on
entry: `100,100,1280x720` for geometry, `0,0,640x480` with
`freq = depth = 0` for fullscreen. The failure is reported only through
`Com_DPrintf`, a debug-level log. -/
theorem parse_failure_keeps_defaults (g ml : Option String) (fs : Option Int) :
    ((VID_GetGeometry g).ok = false → VID_GetGeometry g = ⟨false, ⟨100, 100, 1280, 720⟩⟩) ∧
    ((VID_GetFullscreen ml fs).ok = false →
      VID_GetFullscreen ml fs = ⟨false, ⟨0, 0, 640, 480⟩, 0, 0⟩) := by
  constructor
  · intro hok
    cases hp : geoParse (g.map String.data) with
    | none => simp [VID_GetGeometry, hp]
    | some r => simp [VID_GetGeometry, hp] at hok
  · intro hok
    cases hp : fsParse (ml.map String.data) fs with
    | none => simp [VID_GetFullscreen, hp]
    | some r => simp [VID_GetFullscreen, hp] at hok

/-- C7 witness: a malformed geometry string and an out-of-range mode index. -/
theorem parse_failure_keeps_defaults_witness :
    VID_GetGeometry (some "oops") = ⟨false, ⟨100, 100, 1280, 720⟩⟩ ∧
    VID_GetFullscreen (some "800x600@75") (some 5) = ⟨false, ⟨0, 0, 640, 480⟩, 0, 0⟩ :=
  ⟨(parse_failure_keeps_defaults (some "oops") (some "800x600@75") (some 5)).1 (by decide),
   (parse_failure_keeps_defaults (some "oops") (some "800x600@75") (some 5)).2 (by decide)⟩

/-- The 1-based mode counter starts at 1 and only grows, so it never
matches a non-positive target. -/
theorem findModeF_none_of_lt (fuel : Nat) :
    ∀ (target mode : Int) (s : List Char), target < mode →
      findModeF fuel target mode s = none := by
  induction fuel with
  | zero => intro _ _ _ _; rfl
  | succ fuel ih =>
    intro target mode s h
    rw [findModeF]
    cases hp : parseToken s with
    | none => rfl
    | some r =>
      simp only
      rw [if_neg (by omega : ¬ mode = target)]
      by_cases he : (r.2.2.2.2).dropWhile Q_isspace = []
      · rw [if_pos he]
      · rw [if_neg he]
        exact ih target (mode + 1) _ (by omega)

/-- C10: when the selected index is zero or negative, `VID_GetFullscreen`
fails (the 1-based counter never equals a non-positive selection) and the
output keeps the defaults `0,0,640x480` with `freq = depth = 0`. (This
holds for every mode-list string: lists with a malformed token fail even
earlier, with the same defaults.) -/
theorem nonpositive_index_fails (ml : String) (fs : Int) (h : fs ≤ 0) :
    VID_GetFullscreen (some ml) (some fs) = ⟨false, ⟨0, 0, 640, 480⟩, 0, 0⟩ := by
  have hf : fsParse (some ml.data) (some fs) = none := by
    rw [fsParse]
    by_cases he : ml.data.dropWhile Q_isspace = []
    · rw [if_pos he]
    · rw [if_neg he, findMode, findModeF_none_of_lt _ _ _ _ (by omega)]
  simp [VID_GetFullscreen, hf]

/-- C10 witness: a fully well-formed two-token list with selection 0. -/
theorem nonpositive_index_fails_witness :
    VID_GetFullscreen (some "640x480 800x600") (some 0) = ⟨false, ⟨0, 0, 640, 480⟩, 0, 0⟩ :=
  nonpositive_index_fails "640x480 800x600" 0 (by decide)

/-- C1 counterexample: with `vid_modelist = "desktop"` and
`vid_fullscreen = 1` the selected token is `desktop`, yet
`VID_GetFullscreen` does not succeed (the claim says it returns true with
an all-zero mode): the zero width is rejected by the `w < 320` sanity
check on line 131, and the defaults stay in place. -/
theorem desktop_mode_rejected :
    (VID_GetFullscreen (some "desktop") (some 1)).ok = false ∧
      VID_GetFullscreen (some "desktop") (some 1) = ⟨false, ⟨0, 0, 640, 480⟩, 0, 0⟩ := by
  decide

/-- C1 amended: a selection whose token parses as the all-zero `desktop`
mode (regardless of the tokens preceding it) makes `VID_GetFullscreen`
return `false` with the untouched defaults `0,0,640x480`, `freq = depth = 0`:
the zero width fails the `w < 320` sanity check. -/
theorem desktop_selection_fails (ml : String) (fs : Int)
    (h : findMode fs (ml.data.dropWhile Q_isspace) = some (0, 0, 0, 0)) :
    VID_GetFullscreen (some ml) (some fs) = ⟨false, ⟨0, 0, 640, 480⟩, 0, 0⟩ := by
  have hf : fsParse (some ml.data) (some fs) = none := by
    rw [fsParse]
    by_cases he : ml.data.dropWhile Q_isspace = []
    · rw [if_pos he]
    · rw [if_neg he, h]
      norm_num
  simp [VID_GetFullscreen, hf]

/-- C1 amended witness: `desktop` selected at index 1. -/
theorem desktop_selection_fails_witness :
    VID_GetFullscreen (some "desktop") (some 1) = ⟨false, ⟨0, 0, 640, 480⟩, 0, 0⟩ :=
  desktop_selection_fails "desktop" 1 (by decide)

/-! Scaling helpers (lines 513-546). -/

/-- The `width`/`height` of the process-wide `refcfg_t r_config`. -/
structure refcfg_t where
  width : Int
  height : Int
deriving DecidableEq

/-- `get_auto_scale` (lines 513-535); `dpi` is the optional
`vid.get_dpi_scale` hook together with its result (`none` = null pointer). -/
def get_auto_scale (cfg : refcfg_t) (dpi : Option Int) : Int :=
  let scale : Int := 1
  let scale :=
    if cfg.height < cfg.width then
      (if 2160 ≤ cfg.height then 4 else if 1080 ≤ cfg.height then 2 else scale)
    else
      (if 3840 ≤ cfg.width then 4 else if 1920 ≤ cfg.width then 2 else scale)
  match dpi with
  | some min_scale => max scale min_scale
  | none => scale

/-- Modelled from the spec: `Cvar_ClampValue(var, min, max)` lives in the
cvar store, which is not under `src/`; the spec (§4.7) says "clamp the
cvar to [1.0, 10.0]". Only the returned value matters to `R_ClampScale`
(the write-back into the cvar does not affect the result). -/
def Cvar_ClampValue (v lo hi : ℚ) : ℚ :=
  if v < lo then lo else if hi < v then hi else v

/-- `R_ClampScale` (lines 537-546). C `float` arithmetic is modelled
exactly over `ℚ`; every branch decision (`!var`, `var->value` non-zero)
and every compared value is exactly representable, so the branch
structure is unchanged. A `none` cvar is the null pointer. -/
def R_ClampScale (cfg : refcfg_t) (dpi : Option Int) (var : Option ℚ) : ℚ :=
  match var with
  | none => 1
  | some v => if v ≠ 0 then 1 / Cvar_ClampValue v 1 10 else 1 / (get_auto_scale cfg dpi : ℚ)

/-- C3 counterexample: `r_config = (width 3840, height 1080)` is landscape
(`height < width`) with `width ≥ 3840`, where the claim demands scale 4,
but the code keys landscape on the height (1080 → 2). -/
theorem auto_scale_landscape_counterexample :
    (1080 : Int) < 3840 ∧ (3840 : Int) ≤ 3840 ∧
      get_auto_scale ⟨3840, 1080⟩ none = 2 ∧ get_auto_scale ⟨3840, 1080⟩ none ≠ 4 := by
  decide

/-- C3 amended: with no DPI hint, landscape (`height < width`) picks the
scale from the height — 4 when `height ≥ 2160`, 2 when
`1080 ≤ height < 2160`, else 1 — and portrait/square (`height ≥ width`)
picks it from the width — 4 when `width ≥ 3840`, 2 when
`1920 ≤ width < 3840`, else 1. -/
theorem auto_scale_thresholds (w h : Int) :
    (h < w → 2160 ≤ h → get_auto_scale ⟨w, h⟩ none = 4) ∧
    (h < w → 1080 ≤ h → h < 2160 → get_auto_scale ⟨w, h⟩ none = 2) ∧
    (h < w → h < 1080 → get_auto_scale ⟨w, h⟩ none = 1) ∧
    (w ≤ h → 3840 ≤ w → get_auto_scale ⟨w, h⟩ none = 4) ∧
    (w ≤ h → 1920 ≤ w → w < 3840 → get_auto_scale ⟨w, h⟩ none = 2) ∧
    (w ≤ h → w < 1920 → get_auto_scale ⟨w, h⟩ none = 1) := by
  refine ⟨fun h1 h2 => ?_, fun h1 h2 h3 => ?_, fun h1 h2 => ?_,
    fun h1 h2 => ?_, fun h1 h2 h3 => ?_, fun h1 h2 => ?_⟩ <;>
    simp only [get_auto_scale] <;> split_ifs <;> first | rfl | omega

/-- C3 amended witness at `1920x1080`. -/
theorem auto_scale_thresholds_witness : get_auto_scale ⟨1920, 1080⟩ none = 2 :=
  (auto_scale_thresholds 1920 1080).2.1 (by decide) (by decide) (by decide)

/-- C9 counterexample: with `r_config = (1920, 1080)` (auto scale 2) and a
null cvar, `R_ClampScale` returns `1.0`, while the claim demands
`1 / auto_scale = 1/2`. -/
theorem clamp_scale_null_counterexample :
    R_ClampScale ⟨1920, 1080⟩ none none = 1 ∧
      (1 : ℚ) / (get_auto_scale ⟨1920, 1080⟩ none : ℚ) ≠ 1 := by
  constructor
  · rfl
  · norm_num [get_auto_scale]

/-- C9 amended: a null cvar returns `1.0` (not `1 / auto_scale`); a cvar
with value zero returns `1 / auto_scale`; a non-zero cvar has its value
clamped to `[1, 10]` and the reciprocal of the clamped value is
returned. -/
theorem clamp_scale_cases (cfg : refcfg_t) (dpi : Option Int) (v : ℚ) :
    R_ClampScale cfg dpi none = 1 ∧
    R_ClampScale cfg dpi (some 0) = 1 / (get_auto_scale cfg dpi : ℚ) ∧
    (v ≠ 0 → R_ClampScale cfg dpi (some v) = 1 / max 1 (min 10 v)) := by
  refine ⟨rfl, by simp [R_ClampScale], fun hv => ?_⟩
  have hcl : Cvar_ClampValue v 1 10 = max 1 (min 10 v) := by
    rw [Cvar_ClampValue]
    split_ifs with h1 h2
    · rw [min_eq_right (by linarith : v ≤ 10), max_eq_left (le_of_lt h1)]
    · rw [min_eq_left (le_of_lt h2), max_eq_right (by norm_num : (1 : ℚ) ≤ 10)]
    · rw [min_eq_right (not_lt.mp h2), max_eq_right (not_lt.mp h1)]
  simp [R_ClampScale, hv, hcl]

/-- C9 amended witness at cvar value 5. -/
theorem clamp_scale_cases_witness :
    R_ClampScale ⟨640, 480⟩ none (some 5) = 1 / max 1 (min 10 (5 : ℚ)) :=
  (clamp_scale_cases ⟨640, 480⟩ none 5).2.2 (by norm_num)

/-!
Mode-change coalescing and lifecycle (lines 45-49 and 241-460).
The module-global state touched by this file is gathered in `GState`;
external subsystems (`V_*`, `SCR_*`, `UI_*`, `FX_*`, `Cmd_*`,
`Z_LeakTest`, `CL_RestartRefresh`, and the renderer back-ends reached
through `R_Init`/`R_Shutdown`) live outside `src/` and do not write any
of these globals; restarts are reported as events. -/

def MODE_GEOMETRY : Nat := 1
def MODE_FULLSCREEN : Nat := 2
def MODE_MODELIST : Nat := 4

/-- `ref_type_t`: `REF_TYPE_NONE` plus the two back-end kinds. -/
inductive RefType
  | NONE
  | GL
  | VKPT
deriving DecidableEq

/-- Client activity (`cls.active`); the shutdown path stores
`ACT_MINIMIZED`. -/
inductive ActState
  | minimized
  | restored
  | activated
deriving DecidableEq

/-- Driver descriptor `vid_driver_t`. The struct is declared in a header
outside `src/`; fields follow the spec's driver ABI (§3, §6). Plain
function pointers are modelled as presence flags; `probe` is
`Option Bool` (`none` = null pointer, `some b` = a probe returning `b`);
`get_dpi_scale` is the optional hook with its result. -/
structure vid_driver_t where
  name : String
  probe : Option Bool
  set_mode_ptr : Bool
  pump_events_ptr : Bool
  get_mode_list_ptr : Bool
  get_dpi_scale : Option Int
deriving DecidableEq

/-- `memset(&vid, 0, sizeof(vid))`: every field zero / null. -/
def vid_zero : vid_driver_t := ⟨"", none, false, false, false, none⟩

/-- The renderer dispatch table (lines 465-511): one flag per function
pointer, `true` = non-null. -/
structure RendererBinding where
  R_Init : Bool
  R_Shutdown : Bool
  R_BeginRegistration : Bool
  R_SetSky : Bool
  R_EndRegistration : Bool
  R_RenderFrame : Bool
  R_LightPoint : Bool
  R_ClearColor : Bool
  R_SetAlpha : Bool
  R_SetAlphaScale : Bool
  R_SetColor : Bool
  R_SetClipRect : Bool
  R_SetScale : Bool
  R_DrawChar : Bool
  R_DrawString : Bool
  R_DrawPic : Bool
  R_DrawStretchPic : Bool
  R_DrawKeepAspectPic : Bool
  R_DrawStretchRaw : Bool
  R_TileClear : Bool
  R_DrawFill8 : Bool
  R_DrawFill32 : Bool
  R_UpdateRawPic : Bool
  R_DiscardRawPic : Bool
  R_BeginFrame : Bool
  R_EndFrame : Bool
  R_ModeChanged : Bool
  R_AddDecal : Bool
  R_InterceptKey : Bool
  R_IsHDR : Bool
  R_SupportsDebugLines : Bool
  R_AddDebugText_ : Bool
  IMG_Unload : Bool
  IMG_Load : Bool
  IMG_ReadPixels : Bool
  IMG_ReadPixelsHDR : Bool
  MOD_LoadMD2 : Bool
  MOD_LoadMD3 : Bool
  MOD_LoadIQM : Bool
  MOD_Reference : Bool
deriving DecidableEq

/-- All pointers null (the initializers on lines 465-511). -/
def binding_null : RendererBinding :=
  ⟨false, false, false, false, false, false, false, false, false, false,
   false, false, false, false, false, false, false, false, false, false,
   false, false, false, false, false, false, false, false, false, false,
   false, false, false, false, false, false, false, false, false, false⟩

/-- All pointers populated, as after a back-end registration call. -/
def binding_full : RendererBinding :=
  ⟨true, true, true, true, true, true, true, true, true, true,
   true, true, true, true, true, true, true, true, true, true,
   true, true, true, true, true, true, true, true, true, true,
   true, true, true, true, true, true, true, true, true, true⟩

/-- The module/client globals of refresh.c that its functions read and
write: `cls.ref_initialized`, `cls.ref_type`, `cls.active`, the dispatch
table, the active driver slot `vid`, `mode_changed`, the cvar values
involved (`vid_fullscreen` as integer and string, `_vid_fullscreen`'s
string), the three `changed` callbacks (attached or `NULL`), and the
`cvar_modified` bits `CVAR_REFRESH`/`CVAR_FILES` as two flags. -/
structure GState where
  ref_initialized : Bool
  ref_type : RefType
  active : ActState
  binding : RendererBinding
  vid : vid_driver_t
  mode_changed : Nat
  fs_integer : Int
  fs_string : String
  underscore_fs_string : String
  geometry_cb_attached : Bool
  fullscreen_cb_attached : Bool
  modelist_cb_attached : Bool
  refresh_dirty : Bool
  files_dirty : Bool
deriving DecidableEq

/-- Observable events of one `CL_RunRefresh` tick: whether
`vid.pump_events()` ran, how many times lines 256/263/267 called
`vid.set_mode()` directly, and which restart (if any) was requested
(`CL_RestartRefresh` itself lives outside `src/`). -/
structure TickEvents where
  pumped : Bool
  set_mode_calls : Nat
  restart_total : Bool
  restart_files : Bool
deriving DecidableEq

/-- Lines 254-272: drain the pending-change mask. Returns the new state
and the number of direct `vid.set_mode()` calls. -/
def drainModeChanges (st : GState) : GState × Nat :=
  if st.mode_changed ≠ 0 then
    (if st.mode_changed &&& MODE_FULLSCREEN ≠ 0 then
      ({ st with
          mode_changed := 0,
          underscore_fs_string :=
            if st.fs_integer ≠ 0 then st.fs_string else st.underscore_fs_string }, 1)
     else if st.fs_integer ≠ 0 then
      ({ st with mode_changed := 0 }, if st.mode_changed &&& MODE_MODELIST ≠ 0 then 1 else 0)
     else
      ({ st with mode_changed := 0 }, if st.mode_changed &&& MODE_GEOMETRY ≠ 0 then 1 else 0))
  else (st, 0)

/-- `CL_RunRefresh` (lines 246-281): guard on `ref_initialized`, pump
events, drain the mask, then honor the `CVAR_REFRESH` / `CVAR_FILES`
dirty flags (restart requests are events; the restart entry point is
outside `src/`). -/
def CL_RunRefresh (st : GState) : GState × TickEvents :=
  if st.ref_initialized then
    (let st1 := (drainModeChanges st).1
     let calls := (drainModeChanges st).2
     if st1.refresh_dirty then
       ({ st1 with refresh_dirty := false }, ⟨true, calls, true, false⟩)
     else if st1.files_dirty then
       ({ st1 with files_dirty := false }, ⟨true, calls, false, true⟩)
     else (st1, ⟨true, calls, false, false⟩))
  else (st, ⟨false, 0, false, false⟩)

/-- `CL_ShutdownRefresh` (lines 432-460): guard on `ref_initialized`;
shut down the dependent subsystems (outside `src/`); detach the three
callbacks; `R_Shutdown(true)` — modelled from the spec: the back-ends are
external collaborators and their shutdown does not write this module's
dispatch-table globals; `memset(&vid, 0, ...)`; clear `ref_initialized`,
reset `ref_type`, set activity to minimized. Note the dispatch table is
not touched. -/
def CL_ShutdownRefresh (st : GState) : GState :=
  if st.ref_initialized then
    { st with
        geometry_cb_attached := false
        fullscreen_cb_attached := false
        modelist_cb_attached := false
        vid := vid_zero
        ref_initialized := false
        ref_type := RefType.NONE
        active := ActState.minimized }
  else st

/-!  Driver selection inside `CL_InitRefresh` (lines 358-393). -/

/-- Result of the selection: the active driver slot, the achieved
`ref_type`, the names on which `R_Init` was invoked (in order), and the
`vid_driver` cvar value afterwards. -/
structure SelOut where
  vid : vid_driver_t
  ref_type : RefType
  inits : List String
  vid_driver_after : String
deriving DecidableEq

/-- Phase A (lines 360-366): walk the registry for a name equal to
`vid_driver`; on a match copy the descriptor and call `R_Init` (the
back-end entry, outside `src/`, represented by the oracle `rinit` giving
its result per active driver). Also returns the loop index at exit
(`tried` for phase B). -/
def phaseA (rinit : String → RefType) (sel : String) :
    List vid_driver_t → vid_driver_t → vid_driver_t × RefType × List String × Nat
  | [], vid0 => (vid0, RefType.NONE, [], 0)
  | d :: ds, vid0 =>
    if d.name = sel then (d, rinit d.name, [d.name], 0)
    else
      (let p := phaseA rinit sel ds vid0
       (p.1, p.2.1, p.2.2.1, p.2.2.2 + 1))

/-- Phase B (lines 380-390): iterate the registry, skipping the index
already tried and every driver whose `probe` is null or returns false;
copy each candidate into `vid` and stop at the first whose `R_Init`
result is not `REF_TYPE_NONE`. `vid` keeps the last candidate tried even
on failure. -/
def fallbackLoop (rinit : String → RefType) (tried : Nat) :
    Nat → List vid_driver_t → vid_driver_t → RefType → List String →
      vid_driver_t × RefType × List String
  | _, [], vid0, rt, inits => (vid0, rt, inits)
  | i, d :: ds, vid0, rt, inits =>
    if i = tried ∨ d.probe = none ∨ d.probe = some false then
      fallbackLoop rinit tried (i + 1) ds vid0 rt inits
    else
      (if rinit d.name ≠ RefType.NONE then (d, rinit d.name, inits ++ [d.name])
       else fallbackLoop rinit tried (i + 1) ds d (rinit d.name) (inits ++ [d.name]))

/-- Lines 358-390 combined: phase A, then — whenever `ref_type` is still
`REF_TYPE_NONE` — phase B followed by `Cvar_Reset(vid_driver)`
(`vid_driver` was registered with default `""` on line 331, so the reset
empties it). -/
def selectDriver (drivers : List vid_driver_t) (sel : String) (vid0 : vid_driver_t)
    (rinit : String → RefType) : SelOut :=
  let pa := phaseA rinit sel drivers vid0
  if pa.2.1 = RefType.NONE then
    (let fb := fallbackLoop rinit pa.2.2.2 0 drivers pa.1 pa.2.1 []
     ⟨fb.1, fb.2.1, pa.2.2.1 ++ fb.2.2, ""⟩)
  else ⟨pa.1, pa.2.1, pa.2.2.1, sel⟩

/-! Lifecycle and coalescer claims. -/

/-- A concrete fully-initialized state: binding populated, SDL-like
driver active, callbacks attached, nothing pending. -/
def st_live : GState where
  ref_initialized := true
  ref_type := RefType.GL
  active := ActState.activated
  binding := binding_full
  vid := ⟨"sdl", some true, true, true, true, none⟩
  mode_changed := 0
  fs_integer := 0
  fs_string := "0"
  underscore_fs_string := "1"
  geometry_cb_attached := true
  fullscreen_cb_attached := true
  modelist_cb_attached := true
  refresh_dirty := false
  files_dirty := false

/-- C2 counterexample: shutting down from an initialized state with a
fully populated dispatch table zeroes the driver slot `vid` but leaves
the table populated — `CL_ShutdownRefresh` contains no code nulling the
`R_*`/`IMG_*`/`MOD_*` pointers (only `memset(&vid, 0, sizeof(vid))` on
line 451). -/
theorem shutdown_leaves_binding_populated :
    (CL_ShutdownRefresh st_live).vid = vid_zero ∧
      (CL_ShutdownRefresh st_live).binding.R_Init = true ∧
      (CL_ShutdownRefresh st_live).binding = binding_full := by decide

/-- C2 amended: after `CL_ShutdownRefresh` from an initialized state, the
driver slot `vid` is zeroed, `ref_initialized` is cleared, `ref_type` is
reset, activity is minimized and the three `changed` callbacks are
detached — but the renderer function pointers are left exactly as they
were; they are only replaced by the next registration call during init. -/
theorem shutdown_state_after (st : GState) (h : st.ref_initialized = true) :
    (CL_ShutdownRefresh st).vid = vid_zero ∧
    (CL_ShutdownRefresh st).binding = st.binding ∧
    (CL_ShutdownRefresh st).ref_initialized = false ∧
    (CL_ShutdownRefresh st).ref_type = RefType.NONE ∧
    (CL_ShutdownRefresh st).active = ActState.minimized ∧
    (CL_ShutdownRefresh st).geometry_cb_attached = false ∧
    (CL_ShutdownRefresh st).fullscreen_cb_attached = false ∧
    (CL_ShutdownRefresh st).modelist_cb_attached = false := by
  simp [CL_ShutdownRefresh, h]

/-- C2 amended witness at `st_live`. -/
theorem shutdown_state_after_witness :
    (CL_ShutdownRefresh st_live).binding = binding_full ∧
      (CL_ShutdownRefresh st_live).vid = vid_zero :=
  ⟨((shutdown_state_after st_live (by decide)).2.1).trans rfl,
    (shutdown_state_after st_live (by decide)).1⟩

/-- Inside one initialized tick, the direct `set_mode` count and the final
`_vid_fullscreen` value come from the drain alone (the dirty-flag branch
below it only requests restarts). -/
theorem runRefresh_events (st : GState) (h : st.ref_initialized = true) :
    (CL_RunRefresh st).2.set_mode_calls = (drainModeChanges st).2 ∧
    (CL_RunRefresh st).1.underscore_fs_string =
      (drainModeChanges st).1.underscore_fs_string := by
  rw [CL_RunRefresh, if_pos h]
  by_cases h1 : (drainModeChanges st).1.refresh_dirty
  · simp [h1]
  · by_cases h2 : (drainModeChanges st).1.files_dirty <;> simp [h1, h2]

/-- C5: with the FULLSCREEN bit clear, a pure-GEOMETRY pending mask while
`vid_fullscreen ≠ 0` does not call `vid.set_mode()`, and a pure-MODELIST
pending mask while `vid_fullscreen = 0` does not call `vid.set_mode()`. -/
theorem isolated_change_no_set_mode (st : GState) (h : st.ref_initialized = true) :
    (st.mode_changed = MODE_GEOMETRY → st.fs_integer ≠ 0 →
      (CL_RunRefresh st).2.set_mode_calls = 0) ∧
    (st.mode_changed = MODE_MODELIST → st.fs_integer = 0 →
      (CL_RunRefresh st).2.set_mode_calls = 0) := by
  constructor
  · intro hm hf
    rw [(runRefresh_events st h).1, drainModeChanges,
      if_pos (show st.mode_changed ≠ 0 by rw [hm]; decide),
      if_neg (show ¬ st.mode_changed &&& MODE_FULLSCREEN ≠ 0 by rw [hm]; decide),
      if_pos hf,
      if_neg (show ¬ st.mode_changed &&& MODE_MODELIST ≠ 0 by rw [hm]; decide)]
  · intro hm hf
    rw [(runRefresh_events st h).1, drainModeChanges,
      if_pos (show st.mode_changed ≠ 0 by rw [hm]; decide),
      if_neg (show ¬ st.mode_changed &&& MODE_FULLSCREEN ≠ 0 by rw [hm]; decide),
      if_neg (show ¬ st.fs_integer ≠ 0 by rw [hf]; decide),
      if_neg (show ¬ st.mode_changed &&& MODE_GEOMETRY ≠ 0 by rw [hm]; decide)]

/-- C5 witness: the two isolated-change states. -/
theorem isolated_change_no_set_mode_witness :
    (CL_RunRefresh { st_live with mode_changed := 1, fs_integer := 1 }).2.set_mode_calls = 0 ∧
    (CL_RunRefresh { st_live with mode_changed := 4, fs_integer := 0 }).2.set_mode_calls = 0 :=
  ⟨(isolated_change_no_set_mode { st_live with mode_changed := 1, fs_integer := 1 }
      (by decide)).1 (by decide) (by decide),
   (isolated_change_no_set_mode { st_live with mode_changed := 4, fs_integer := 0 }
      (by decide)).2 (by decide) (by decide)⟩

/-- C6: in an initialized tick, whenever the FULLSCREEN bit is pending,
`vid.set_mode()` is called (exactly once) regardless of the other bits,
and if the new `vid_fullscreen` is non-zero its string value is copied
into `_vid_fullscreen`. -/
theorem fullscreen_bit_forces_set_mode (st : GState) (h : st.ref_initialized = true)
    (hb : st.mode_changed &&& MODE_FULLSCREEN ≠ 0) :
    (CL_RunRefresh st).2.set_mode_calls = 1 ∧
    (st.fs_integer ≠ 0 → (CL_RunRefresh st).1.underscore_fs_string = st.fs_string) := by
  have hm : st.mode_changed ≠ 0 := by
    intro h0
    rw [h0] at hb
    exact hb (by decide)
  constructor
  · rw [(runRefresh_events st h).1, drainModeChanges, if_pos hm, if_pos hb]
  · intro hf
    rw [(runRefresh_events st h).2, drainModeChanges, if_pos hm, if_pos hb]
    simp [hf]

/-- C6 witness: all three bits pending, `vid_fullscreen = 2`. -/
theorem fullscreen_bit_forces_set_mode_witness :
    (CL_RunRefresh { st_live with mode_changed := 7, fs_integer := 2, fs_string := "2" }
      ).2.set_mode_calls = 1 ∧
    (CL_RunRefresh { st_live with mode_changed := 7, fs_integer := 2, fs_string := "2" }
      ).1.underscore_fs_string = "2" :=
  ⟨(fullscreen_bit_forces_set_mode
      { st_live with mode_changed := 7, fs_integer := 2, fs_string := "2" }
      (by decide) (by decide)).1,
   (fullscreen_bit_forces_set_mode
      { st_live with mode_changed := 7, fs_integer := 2, fs_string := "2" }
      (by decide) (by decide)).2 (by decide)⟩

/-! Driver fallback claim (C8). -/

def drvA : vid_driver_t := ⟨"A", some false, true, true, true, none⟩
def drvB : vid_driver_t := ⟨"B", some true, true, true, true, none⟩
def drvC : vid_driver_t := ⟨"C", some true, true, true, true, none⟩

/-- C8: with `vid_driver` empty and registry
`[A (probe false), B (probe true), C (probe true)]`, phase A matches
nothing, so the fallback loop runs: A is skipped (probe false), B's
descriptor is copied and `R_Init` called; if B's `R_Init` returns
`REF_TYPE_NONE` the loop goes on to initialize C; and `vid_driver` is
reset to its empty default after the fallback loop, in every case. -/
theorem fallback_selection_order (rinit : String → RefType) :
    (selectDriver [drvA, drvB, drvC] "" vid_zero rinit).vid_driver_after = "" ∧
    (selectDriver [drvA, drvB, drvC] "" vid_zero rinit).inits =
      (if rinit "B" = RefType.NONE then ["B", "C"] else ["B"]) ∧
    (selectDriver [drvA, drvB, drvC] "" vid_zero rinit).vid =
      (if rinit "B" = RefType.NONE then drvC else drvB) := by
  by_cases hB : rinit "B" = RefType.NONE
  · by_cases hC : rinit "C" = RefType.NONE
    · simp [selectDriver, phaseA, fallbackLoop, drvA, drvB, drvC, hB, hC, vid_zero]
    · simp [selectDriver, phaseA, fallbackLoop, drvA, drvB, drvC, hB, hC, vid_zero]
  · simp [selectDriver, phaseA, fallbackLoop, drvA, drvB, drvC, hB, vid_zero]

end Q2Refresh
